import Mathlib

/-!
Verification of the escrow-payment program (programs/escrow-payment/src).

The program is shallowly embedded: `PaymentAgreement` mirrors the account
struct in `account.rs`, `ErrorCode` mirrors the error enum, and each of the
six instruction handlers in `instructions.rs` becomes a Lean function that
threads an explicit `EscrowState` (the agreement record plus the lamport
balances of the custody PDA, the payer and the receiver).  Pubkeys are
modelled as `Nat`; lamports are `Nat` with the u64 bound checked exactly
where the runtime primitives (`system_program::transfer`, `sub_lamports`,
`add_lamports`, account close) check it.  Each handler returns the state of
the accounts at return time together with `none` on success or `some e`
when a `require!` (or a lamport primitive) aborted; since every `require!`
in the source precedes every mutation, a guard failure returns the input
state unchanged, and that fact is proved, not assumed.
-/

namespace EscrowPayment

/-- Pubkeys are opaque identities; we model them as naturals. -/
abbrev Pubkey := Nat

/-- Exclusive upper bound of a u64 lamport balance. -/
def U64LIMIT : Nat := 2 ^ 64

/-- The `PaymentAgreement` account struct from `account.rs`. -/
structure PaymentAgreement where
  name : String
  payer : Pubkey
  receiver : Pubkey
  referee : Option Pubkey
  amount : Nat
  expiration_timestamp : Option Int
  payer_approved : Bool
  receiver_approved : Bool
  payer_requested_cancel : Bool
  receiver_requested_cancel : Bool
  is_completed : Bool
  is_cancelled : Bool
  is_referee_intervened : Bool
  deriving Repr, DecidableEq

/-- The `ErrorCode` enum from `account.rs`. -/
inductive ErrorCode where
  | AgreementAlreadyCompleted
  | AgreementAlreadyCancelled
  | BothPartiesMustApprove
  | InvalidName
  | InsufficientFunds
  | Unauthorized
  | AgreementIsNotCompleted
  | PayerCannotBeReceiver
  | InvalidPayer
  | InvalidReceiver
  | RefereeCannotBePayer
  | RefereeCannotBeReceiver
  | ExpirationMustBeInFuture
  | PaymentAgreementNotExpired
  deriving Repr, DecidableEq

/-- An instruction aborts either with a program `ErrorCode` (a `require!`)
or with an arithmetic failure raised by a lamport primitive
(`system_program::transfer`, `sub_lamports`, `add_lamports`). -/
inductive EscrowErr where
  | code : ErrorCode → EscrowErr
  | arithmetic
  deriving Repr, DecidableEq

/-- The observable state an instruction touches: the agreement record, the
lamports held by the agreement PDA (custody), and the lamport balances of
the payer and receiver accounts.  `closed` records that the PDA account was
closed (`close = payer` on `WithdrawExpiredFunds`). -/
structure EscrowState where
  agreement : PaymentAgreement
  custody : Nat
  payerBal : Nat
  receiverBal : Nat
  closed : Bool
  deriving Repr, DecidableEq

/-- A checked lamport transfer: `sub_lamports` on the source (fails on
underflow) followed by `add_lamports` on the destination (fails when the
u64 balance would overflow). -/
def transferLamports (src dst amount : Nat) : Except EscrowErr (Nat × Nat) :=
  if amount ≤ src then
    if dst + amount < U64LIMIT then Except.ok (src - amount, dst + amount)
    else Except.error EscrowErr.arithmetic
  else Except.error EscrowErr.arithmetic

/-- `create_payment_agreement` from `instructions.rs`.  The input state is
the freshly initialised PDA account plus the caller's balances; the checks
run in source order; on success all fields are written (every flag false)
and `amount` is transferred from the payer into the PDA. -/
def create_payment_agreement (s : EscrowState) (payer : Pubkey) (name : String)
    (receiver : Pubkey) (amount : Nat) (expiration_timestamp : Option Int)
    (referee : Option Pubkey) (now : Int) : EscrowState × Option EscrowErr :=
  if ¬ (name.utf8ByteSize > 0 ∧ name.utf8ByteSize ≤ 32) then
    (s, some (EscrowErr.code ErrorCode.InvalidName))
  else if ¬ (payer ≠ receiver) then
    (s, some (EscrowErr.code ErrorCode.PayerCannotBeReceiver))
  else if referee = some payer then
    (s, some (EscrowErr.code ErrorCode.RefereeCannotBePayer))
  else if referee = some receiver then
    (s, some (EscrowErr.code ErrorCode.RefereeCannotBeReceiver))
  else if expiration_timestamp.any (fun e => decide (e ≤ now)) then
    (s, some (EscrowErr.code ErrorCode.ExpirationMustBeInFuture))
  else if ¬ (s.payerBal ≥ amount) then
    (s, some (EscrowErr.code ErrorCode.InsufficientFunds))
  else
    let s1 : EscrowState :=
      { s with agreement :=
          { name := name, payer := payer, receiver := receiver,
            referee := referee, amount := amount,
            expiration_timestamp := expiration_timestamp,
            payer_approved := false, receiver_approved := false,
            payer_requested_cancel := false, receiver_requested_cancel := false,
            is_completed := false, is_cancelled := false,
            is_referee_intervened := false } }
    match transferLamports s1.payerBal s1.custody amount with
    | Except.ok (p, c) => ({ s1 with payerBal := p, custody := c }, none)
    | Except.error e => (s1, some e)

/-- `approve_payment_agreement` from `instructions.rs`: guards in source
order, then the caller's approval flag is set; when both approvals hold the
agreement completes and custody pays the receiver. -/
def approve_payment_agreement (s : EscrowState) (signer payerAcc receiverAcc : Pubkey) :
    EscrowState × Option EscrowErr :=
  let pa := s.agreement
  if ¬ (signer = pa.payer ∨ signer = pa.receiver) then
    (s, some (EscrowErr.code ErrorCode.Unauthorized))
  else if ¬ (payerAcc = pa.payer) then
    (s, some (EscrowErr.code ErrorCode.InvalidPayer))
  else if ¬ (receiverAcc = pa.receiver) then
    (s, some (EscrowErr.code ErrorCode.InvalidReceiver))
  else if pa.is_completed then
    (s, some (EscrowErr.code ErrorCode.AgreementAlreadyCompleted))
  else if pa.is_cancelled then
    (s, some (EscrowErr.code ErrorCode.AgreementAlreadyCancelled))
  else
    let pa1 :=
      if signer = pa.payer then { pa with payer_approved := true }
      else if signer = pa.receiver then { pa with receiver_approved := true }
      else pa
    let should_complete := pa1.payer_approved && pa1.receiver_approved
    let pa2 := if should_complete then { pa1 with is_completed := true } else pa1
    let s1 := { s with agreement := pa2 }
    if should_complete then
      match transferLamports s1.custody s1.receiverBal pa2.amount with
      | Except.ok (c, r) => ({ s1 with custody := c, receiverBal := r }, none)
      | Except.error e => (s1, some e)
    else (s1, none)

/-- `cancel_payment_agreement` from `instructions.rs`: only the payer
account is bound; the caller's cancellation-request flag is set; when both
requests hold the agreement is cancelled and custody refunds the payer. -/
def cancel_payment_agreement (s : EscrowState) (signer payerAcc : Pubkey) :
    EscrowState × Option EscrowErr :=
  let pa := s.agreement
  if ¬ (signer = pa.payer ∨ signer = pa.receiver) then
    (s, some (EscrowErr.code ErrorCode.Unauthorized))
  else if ¬ (payerAcc = pa.payer) then
    (s, some (EscrowErr.code ErrorCode.InvalidPayer))
  else if pa.is_completed then
    (s, some (EscrowErr.code ErrorCode.AgreementAlreadyCompleted))
  else if pa.is_cancelled then
    (s, some (EscrowErr.code ErrorCode.AgreementAlreadyCancelled))
  else
    let pa1 :=
      if signer = pa.payer then { pa with payer_requested_cancel := true }
      else if signer = pa.receiver then { pa with receiver_requested_cancel := true }
      else pa
    let should_cancel := pa1.payer_requested_cancel && pa1.receiver_requested_cancel
    let pa2 := if should_cancel then { pa1 with is_cancelled := true } else pa1
    let s1 := { s with agreement := pa2 }
    if should_cancel then
      match transferLamports s1.custody s1.payerBal pa2.amount with
      | Except.ok (c, p) => ({ s1 with custody := c, payerBal := p }, none)
      | Except.error e => (s1, some e)
    else (s1, none)

/-- `referee_intervene_complete_payment_agreement` from `instructions.rs`:
the two `require!`s on the referee (presence, then identity) both raise
`Unauthorized`; then account binding, terminal guards, and the
unconditional completion with payout to the receiver. -/
def referee_intervene_complete_payment_agreement (s : EscrowState)
    (signer payerAcc receiverAcc : Pubkey) : EscrowState × Option EscrowErr :=
  let pa := s.agreement
  match pa.referee with
  | none => (s, some (EscrowErr.code ErrorCode.Unauthorized))
  | some ref =>
    if ¬ (ref = signer) then
      (s, some (EscrowErr.code ErrorCode.Unauthorized))
    else if ¬ (payerAcc = pa.payer) then
      (s, some (EscrowErr.code ErrorCode.InvalidPayer))
    else if ¬ (receiverAcc = pa.receiver) then
      (s, some (EscrowErr.code ErrorCode.InvalidReceiver))
    else if pa.is_completed then
      (s, some (EscrowErr.code ErrorCode.AgreementAlreadyCompleted))
    else if pa.is_cancelled then
      (s, some (EscrowErr.code ErrorCode.AgreementAlreadyCancelled))
    else
      let s1 := { s with agreement :=
        { pa with is_completed := true, is_referee_intervened := true } }
      match transferLamports s1.custody s1.receiverBal pa.amount with
      | Except.ok (c, r) => ({ s1 with custody := c, receiverBal := r }, none)
      | Except.error e => (s1, some e)

/-- `referee_intervene_cancel_payment_agreement` from `instructions.rs`:
same referee guards, only the payer account is bound, and the agreement is
cancelled with a refund to the payer. -/
def referee_intervene_cancel_payment_agreement (s : EscrowState)
    (signer payerAcc : Pubkey) : EscrowState × Option EscrowErr :=
  let pa := s.agreement
  match pa.referee with
  | none => (s, some (EscrowErr.code ErrorCode.Unauthorized))
  | some ref =>
    if ¬ (ref = signer) then
      (s, some (EscrowErr.code ErrorCode.Unauthorized))
    else if ¬ (payerAcc = pa.payer) then
      (s, some (EscrowErr.code ErrorCode.InvalidPayer))
    else if pa.is_completed then
      (s, some (EscrowErr.code ErrorCode.AgreementAlreadyCompleted))
    else if pa.is_cancelled then
      (s, some (EscrowErr.code ErrorCode.AgreementAlreadyCancelled))
    else
      let s1 := { s with agreement :=
        { pa with is_cancelled := true, is_referee_intervened := true } }
      match transferLamports s1.custody s1.payerBal pa.amount with
      | Except.ok (c, p) => ({ s1 with custody := c, payerBal := p }, none)
      | Except.error e => (s1, some e)

/-- `withdraw_expired_funds` from `instructions.rs`: the caller (a signer)
must be the stored payer; the expiration must exist and lie strictly in
the past; the agreement must not be terminal.  On success `amount` is paid
back and the PDA is closed to the payer (`close = payer`), refunding any
remaining lamports; no agreement field is written. -/
def withdraw_expired_funds (s : EscrowState) (payerSigner : Pubkey) (now : Int) :
    EscrowState × Option EscrowErr :=
  let pa := s.agreement
  if ¬ (payerSigner = pa.payer) then
    (s, some (EscrowErr.code ErrorCode.Unauthorized))
  else
    match pa.expiration_timestamp with
    | none => (s, some (EscrowErr.code ErrorCode.PaymentAgreementNotExpired))
    | some expiration =>
      if ¬ (now > expiration) then
        (s, some (EscrowErr.code ErrorCode.PaymentAgreementNotExpired))
      else if pa.is_completed then
        (s, some (EscrowErr.code ErrorCode.AgreementAlreadyCompleted))
      else if pa.is_cancelled then
        (s, some (EscrowErr.code ErrorCode.AgreementAlreadyCancelled))
      else
        match transferLamports s.custody s.payerBal pa.amount with
        | Except.error e => (s, some e)
        | Except.ok (c, p) =>
          if p + c < U64LIMIT then
            ({ s with custody := 0, payerBal := p + c, closed := true }, none)
          else ({ s with custody := c, payerBal := p }, some EscrowErr.arithmetic)

/-- One successful post-creation instruction on a live (not closed)
agreement account. -/
inductive Step : EscrowState → EscrowState → Prop where
  | approve (s s' : EscrowState) (signer p r : Pubkey) :
      s.closed = false → approve_payment_agreement s signer p r = (s', none) →
      Step s s'
  | cancel (s s' : EscrowState) (signer p : Pubkey) :
      s.closed = false → cancel_payment_agreement s signer p = (s', none) →
      Step s s'
  | refComplete (s s' : EscrowState) (signer p r : Pubkey) :
      s.closed = false →
      referee_intervene_complete_payment_agreement s signer p r = (s', none) →
      Step s s'
  | refCancel (s s' : EscrowState) (signer p : Pubkey) :
      s.closed = false →
      referee_intervene_cancel_payment_agreement s signer p = (s', none) →
      Step s s'
  | withdraw (s s' : EscrowState) (payer : Pubkey) (now : Int) :
      s.closed = false → withdraw_expired_funds s payer now = (s', none) →
      Step s s'

/-- States reachable by a successful creation followed by any sequence of
successful instructions. -/
inductive Reachable : EscrowState → Prop where
  | create (s₀ s' : EscrowState) (payer : Pubkey) (name : String)
      (receiver : Pubkey) (amount : Nat) (exp : Option Int)
      (referee : Option Pubkey) (now : Int) :
      create_payment_agreement s₀ payer name receiver amount exp referee now =
        (s', none) →
      Reachable s'
  | step (s s' : EscrowState) : Reachable s → Step s s' → Reachable s'

/-- Balance sanity of a state: custody covers the recorded amount and all
balances fit in u64 even after any single internal transfer. -/
def Solvent (s : EscrowState) : Prop :=
  s.agreement.amount ≤ s.custody ∧
  s.payerBal + s.custody < U64LIMIT ∧
  s.receiverBal + s.custody < U64LIMIT

/-- The error a terminal-state guard raises: `AgreementAlreadyCompleted`
when the agreement is completed, `AgreementAlreadyCancelled` when it is
cancelled (the completed guard runs first in every handler). -/
def terminalError (s : EscrowState) : EscrowErr :=
  EscrowErr.code
    (if s.agreement.is_completed then ErrorCode.AgreementAlreadyCompleted
     else ErrorCode.AgreementAlreadyCancelled)

/-- The observable state after an approval attempt by `signer` who passes
the stored payer and receiver accounts: the error-free result, or the
unchanged pre-state when the instruction aborts (a failed transaction has
no effect). -/
def approveAs (s : EscrowState) (signer : Pubkey) : EscrowState :=
  (approve_payment_agreement s signer s.agreement.payer s.agreement.receiver).1

/-- Modelled from the claim wording for comparison with
`create_payment_agreement`: validation in the stated order (name length in
[1,32], payer distinct from receiver, referee distinct from both, a
supplied expiration strictly in the future, payer balance at least the
amount), returning the first failing check's error, and on success a
record with all seven flags false and `amount` moved from the payer into
custody. -/
def create_payment_agreement_spec_order (s : EscrowState) (payer : Pubkey)
    (name : String) (receiver : Pubkey) (amount : Nat)
    (expiration_timestamp : Option Int) (referee : Option Pubkey) (now : Int) :
    EscrowState × Option EscrowErr :=
  if name.utf8ByteSize < 1 ∨ 32 < name.utf8ByteSize then
    (s, some (EscrowErr.code ErrorCode.InvalidName))
  else if payer = receiver then
    (s, some (EscrowErr.code ErrorCode.PayerCannotBeReceiver))
  else if referee = some payer then
    (s, some (EscrowErr.code ErrorCode.RefereeCannotBePayer))
  else if referee = some receiver then
    (s, some (EscrowErr.code ErrorCode.RefereeCannotBeReceiver))
  else
    match expiration_timestamp with
    | some e =>
      if e ≤ now then (s, some (EscrowErr.code ErrorCode.ExpirationMustBeInFuture))
      else if s.payerBal < amount then
        (s, some (EscrowErr.code ErrorCode.InsufficientFunds))
      else
        ({ agreement :=
             { name := name, payer := payer, receiver := receiver,
               referee := referee, amount := amount,
               expiration_timestamp := expiration_timestamp,
               payer_approved := false, receiver_approved := false,
               payer_requested_cancel := false, receiver_requested_cancel := false,
               is_completed := false, is_cancelled := false,
               is_referee_intervened := false },
           custody := s.custody + amount, payerBal := s.payerBal - amount,
           receiverBal := s.receiverBal, closed := s.closed }, none)
    | none =>
      if s.payerBal < amount then
        (s, some (EscrowErr.code ErrorCode.InsufficientFunds))
      else
        ({ agreement :=
             { name := name, payer := payer, receiver := receiver,
               referee := referee, amount := amount,
               expiration_timestamp := expiration_timestamp,
               payer_approved := false, receiver_approved := false,
               payer_requested_cancel := false, receiver_requested_cancel := false,
               is_completed := false, is_cancelled := false,
               is_referee_intervened := false },
           custody := s.custody + amount, payerBal := s.payerBal - amount,
           receiverBal := s.receiverBal, closed := s.closed }, none)

/-- A zeroed agreement record, the content of a freshly allocated PDA. -/
def blankAgreement : PaymentAgreement :=
  { name := "", payer := 0, receiver := 0, referee := none, amount := 0,
    expiration_timestamp := none, payer_approved := false,
    receiver_approved := false, payer_requested_cancel := false,
    receiver_requested_cancel := false, is_completed := false,
    is_cancelled := false, is_referee_intervened := false }

/-- A freshly allocated account ready for `create_payment_agreement`:
payer 1 holds 100 lamports, receiver 2 holds 7, custody is empty. -/
def freshAccount : EscrowState :=
  { agreement := blankAgreement, custody := 0, payerBal := 100,
    receiverBal := 7, closed := false }

/-- A concrete open agreement: payer 1, receiver 2, referee 3, amount 40,
expiring at time 10, created at time 0. -/
def openState : EscrowState :=
  (create_payment_agreement freshAccount 1 "a" 2 40 (some 10) (some 3) 0).1

/-- `openState` after completion was recorded. -/
def completedState : EscrowState :=
  { openState with agreement := { openState.agreement with is_completed := true } }

end EscrowPayment

namespace EscrowPayment

set_option maxHeartbeats 1600000

theorem transferLamports_ok {src dst amount : Nat} (h1 : amount ≤ src)
    (h2 : dst + amount < U64LIMIT) :
    transferLamports src dst amount = Except.ok (src - amount, dst + amount) := by
  simp [transferLamports, h1, h2]

theorem create_ok_flags {s₀ s' : EscrowState} {payer : Pubkey} {name : String}
    {receiver : Pubkey} {amount : Nat} {exp : Option Int} {referee : Option Pubkey}
    {now : Int}
    (h : create_payment_agreement s₀ payer name receiver amount exp referee now =
      (s', none)) :
    s'.agreement.is_completed = false ∧ s'.agreement.is_cancelled = false := by
  simp only [create_payment_agreement] at h
  split_ifs at h
  all_goals try (rcases htl : transferLamports s₀.payerBal s₀.custody amount with e | ⟨p, c⟩ <;> rw [htl] at h)
  all_goals injection h with h1 h2
  all_goals try exact Option.noConfusion h2
  all_goals subst h1
  all_goals simp_all

theorem approve_ok_cancelled {s s' : EscrowState} {signer p r : Pubkey}
    (h : approve_payment_agreement s signer p r = (s', none)) :
    s'.agreement.is_cancelled = false := by
  simp only [approve_payment_agreement] at h
  split_ifs at h
  all_goals try (rcases htl : transferLamports s.custody s.receiverBal s.agreement.amount with e | ⟨c, rb⟩ <;> rw [htl] at h)
  all_goals injection h with h1 h2
  all_goals try exact Option.noConfusion h2
  all_goals subst h1
  all_goals simp_all

theorem cancel_ok_completed {s s' : EscrowState} {signer p : Pubkey}
    (h : cancel_payment_agreement s signer p = (s', none)) :
    s'.agreement.is_completed = false := by
  simp only [cancel_payment_agreement] at h
  split_ifs at h
  all_goals try (rcases htl : transferLamports s.custody s.payerBal s.agreement.amount with e | ⟨c, pb⟩ <;> rw [htl] at h)
  all_goals injection h with h1 h2
  all_goals try exact Option.noConfusion h2
  all_goals subst h1
  all_goals simp_all

theorem refComplete_ok_cancelled {s s' : EscrowState} {signer p r : Pubkey}
    (h : referee_intervene_complete_payment_agreement s signer p r = (s', none)) :
    s'.agreement.is_cancelled = false := by
  simp only [referee_intervene_complete_payment_agreement] at h
  rcases href : s.agreement.referee with _ | ref <;> rw [href] at h <;> dsimp only at h
  · injection h with h1 h2; exact Option.noConfusion h2
  · split_ifs at h
    all_goals try (rcases htl : transferLamports s.custody s.receiverBal s.agreement.amount with e | ⟨c, rb⟩ <;> rw [htl] at h <;> dsimp only at h)
    all_goals injection h with h1 h2
    all_goals try exact Option.noConfusion h2
    all_goals subst h1
    all_goals simp_all

theorem refCancel_ok_completed {s s' : EscrowState} {signer p : Pubkey}
    (h : referee_intervene_cancel_payment_agreement s signer p = (s', none)) :
    s'.agreement.is_completed = false := by
  simp only [referee_intervene_cancel_payment_agreement] at h
  rcases href : s.agreement.referee with _ | ref <;> rw [href] at h <;> dsimp only at h
  · injection h with h1 h2; exact Option.noConfusion h2
  · split_ifs at h
    all_goals try (rcases htl : transferLamports s.custody s.payerBal s.agreement.amount with e | ⟨c, pb⟩ <;> rw [htl] at h <;> dsimp only at h)
    all_goals injection h with h1 h2
    all_goals try exact Option.noConfusion h2
    all_goals subst h1
    all_goals simp_all

theorem withdraw_ok_agreement {s s' : EscrowState} {payer : Pubkey} {now : Int}
    (h : withdraw_expired_funds s payer now = (s', none)) :
    s'.agreement = s.agreement := by
  simp only [withdraw_expired_funds] at h
  split_ifs at h
  all_goals try (rcases hexp : s.agreement.expiration_timestamp with _ | e <;> rw [hexp] at h <;> dsimp only at h)
  all_goals try split_ifs at h
  all_goals try (rcases htl : transferLamports s.custody s.payerBal s.agreement.amount with e' | ⟨c, pb⟩ <;> rw [htl] at h <;> dsimp only at h)
  all_goals try split_ifs at h
  all_goals injection h with h1 h2
  all_goals try exact Option.noConfusion h2
  all_goals subst h1
  all_goals simp_all

/-- C1: for every reachable `PaymentAgreement` state (reachable by any
sequence of the six instructions starting from creation), `is_completed`
and `is_cancelled` are never both true. -/
theorem reachable_not_both_terminal (s : EscrowState) (h : Reachable s) :
    (s.agreement.is_completed && s.agreement.is_cancelled) = false := by
  induction h with
  | create s₀ s' payer name receiver amount exp referee now hc =>
    obtain ⟨h1, h2⟩ := create_ok_flags hc
    simp [h1, h2]
  | step s s' hr hst ih =>
    cases hst with
    | approve signer p r hcl hok => simp [approve_ok_cancelled hok]
    | cancel signer p hcl hok => simp [cancel_ok_completed hok]
    | refComplete signer p r hcl hok => simp [refComplete_ok_cancelled hok]
    | refCancel signer p hcl hok => simp [refCancel_ok_completed hok]
    | withdraw payer now hcl hok => rw [withdraw_ok_agreement hok]; exact ih

/-- Witness for C1: the concrete created state `openState` is reachable
and does not carry both terminal flags. -/
theorem reachable_not_both_terminal_witness :
    (openState.agreement.is_completed && openState.agreement.is_cancelled) = false :=
  reachable_not_both_terminal openState
    (Reachable.create freshAccount openState 1 "a" 2 40 (some 10) (some 3) 0
      (by decide))

theorem approve_unauthorized {s : EscrowState} {signer p r : Pubkey}
    (h : ¬ (signer = s.agreement.payer ∨ signer = s.agreement.receiver)) :
    approve_payment_agreement s signer p r =
      (s, some (EscrowErr.code ErrorCode.Unauthorized)) := by
  simp only [approve_payment_agreement]
  rw [if_pos h]

theorem approve_invalid_payer {s : EscrowState} {signer p r : Pubkey}
    (hs : signer = s.agreement.payer ∨ signer = s.agreement.receiver)
    (hp : ¬ (p = s.agreement.payer)) :
    approve_payment_agreement s signer p r =
      (s, some (EscrowErr.code ErrorCode.InvalidPayer)) := by
  simp only [approve_payment_agreement]
  rw [if_neg (not_not_intro hs), if_pos hp]

theorem approve_invalid_receiver {s : EscrowState} {signer p r : Pubkey}
    (hs : signer = s.agreement.payer ∨ signer = s.agreement.receiver)
    (hp : p = s.agreement.payer) (hr : ¬ (r = s.agreement.receiver)) :
    approve_payment_agreement s signer p r =
      (s, some (EscrowErr.code ErrorCode.InvalidReceiver)) := by
  simp only [approve_payment_agreement]
  rw [if_neg (not_not_intro hs), if_neg (not_not_intro hp), if_pos hr]

theorem approve_already_completed {s : EscrowState} {signer p r : Pubkey}
    (hs : signer = s.agreement.payer ∨ signer = s.agreement.receiver)
    (hp : p = s.agreement.payer) (hr : r = s.agreement.receiver)
    (hc : s.agreement.is_completed = true) :
    approve_payment_agreement s signer p r =
      (s, some (EscrowErr.code ErrorCode.AgreementAlreadyCompleted)) := by
  simp only [approve_payment_agreement]
  rw [if_neg (not_not_intro hs), if_neg (not_not_intro hp),
    if_neg (not_not_intro hr), if_pos hc]

theorem approve_already_cancelled {s : EscrowState} {signer p r : Pubkey}
    (hs : signer = s.agreement.payer ∨ signer = s.agreement.receiver)
    (hp : p = s.agreement.payer) (hr : r = s.agreement.receiver)
    (hco : s.agreement.is_completed = false)
    (hca : s.agreement.is_cancelled = true) :
    approve_payment_agreement s signer p r =
      (s, some (EscrowErr.code ErrorCode.AgreementAlreadyCancelled)) := by
  simp only [approve_payment_agreement]
  rw [if_neg (not_not_intro hs), if_neg (not_not_intro hp),
    if_neg (not_not_intro hr), if_neg (by simp [hco]), if_pos hca]

theorem approve_payer_pending {s : EscrowState} {signer p r : Pubkey}
    (hsp : signer = s.agreement.payer) (hp : p = s.agreement.payer)
    (hr : r = s.agreement.receiver) (hco : s.agreement.is_completed = false)
    (hca : s.agreement.is_cancelled = false)
    (hra : s.agreement.receiver_approved = false) :
    approve_payment_agreement s signer p r =
      ({ s with agreement := { s.agreement with payer_approved := true } },
        none) := by
  simp only [approve_payment_agreement]
  rw [if_neg (not_not_intro (Or.inl hsp)), if_neg (not_not_intro hp),
    if_neg (not_not_intro hr), if_neg (by simp [hco]), if_neg (by simp [hca])]
  simp [hsp, hra]

theorem approve_payer_completes {s : EscrowState} {signer p r : Pubkey}
    (hsp : signer = s.agreement.payer) (hp : p = s.agreement.payer)
    (hr : r = s.agreement.receiver) (hco : s.agreement.is_completed = false)
    (hca : s.agreement.is_cancelled = false)
    (hra : s.agreement.receiver_approved = true)
    (hb1 : s.agreement.amount ≤ s.custody)
    (hb2 : s.receiverBal + s.agreement.amount < U64LIMIT) :
    approve_payment_agreement s signer p r =
      ({ s with
          agreement :=
            { s.agreement with payer_approved := true, is_completed := true },
          custody := s.custody - s.agreement.amount,
          receiverBal := s.receiverBal + s.agreement.amount }, none) := by
  simp only [approve_payment_agreement]
  rw [if_neg (not_not_intro (Or.inl hsp)), if_neg (not_not_intro hp),
    if_neg (not_not_intro hr), if_neg (by simp [hco]), if_neg (by simp [hca])]
  simp [hsp, hra, transferLamports_ok hb1 hb2]

theorem approve_receiver_pending {s : EscrowState} {signer p r : Pubkey}
    (hns : ¬ (signer = s.agreement.payer)) (hsr : signer = s.agreement.receiver)
    (hp : p = s.agreement.payer) (hr : r = s.agreement.receiver)
    (hco : s.agreement.is_completed = false)
    (hca : s.agreement.is_cancelled = false)
    (hpa : s.agreement.payer_approved = false) :
    approve_payment_agreement s signer p r =
      ({ s with agreement := { s.agreement with receiver_approved := true } },
        none) := by
  simp only [approve_payment_agreement]
  rw [if_neg (not_not_intro (Or.inr hsr)), if_neg (not_not_intro hp),
    if_neg (not_not_intro hr), if_neg (by simp [hco]), if_neg (by simp [hca])]
  have hns' : ¬ (s.agreement.receiver = s.agreement.payer) := by
    rw [← hsr]; exact hns
  simp [hsr, hns', hpa]

theorem approve_receiver_completes {s : EscrowState} {signer p r : Pubkey}
    (hns : ¬ (signer = s.agreement.payer)) (hsr : signer = s.agreement.receiver)
    (hp : p = s.agreement.payer) (hr : r = s.agreement.receiver)
    (hco : s.agreement.is_completed = false)
    (hca : s.agreement.is_cancelled = false)
    (hpa : s.agreement.payer_approved = true)
    (hb1 : s.agreement.amount ≤ s.custody)
    (hb2 : s.receiverBal + s.agreement.amount < U64LIMIT) :
    approve_payment_agreement s signer p r =
      ({ s with
          agreement :=
            { s.agreement with receiver_approved := true, is_completed := true },
          custody := s.custody - s.agreement.amount,
          receiverBal := s.receiverBal + s.agreement.amount }, none) := by
  simp only [approve_payment_agreement]
  rw [if_neg (not_not_intro (Or.inr hsr)), if_neg (not_not_intro hp),
    if_neg (not_not_intro hr), if_neg (by simp [hco]), if_neg (by simp [hca])]
  have hns' : ¬ (s.agreement.receiver = s.agreement.payer) := by
    rw [← hsr]; exact hns
  simp [hsr, hns', hpa, transferLamports_ok hb1 hb2]

theorem cancel_unauthorized {s : EscrowState} {signer p : Pubkey}
    (h : ¬ (signer = s.agreement.payer ∨ signer = s.agreement.receiver)) :
    cancel_payment_agreement s signer p =
      (s, some (EscrowErr.code ErrorCode.Unauthorized)) := by
  simp only [cancel_payment_agreement]
  rw [if_pos h]

theorem cancel_invalid_payer {s : EscrowState} {signer p : Pubkey}
    (hs : signer = s.agreement.payer ∨ signer = s.agreement.receiver)
    (hp : ¬ (p = s.agreement.payer)) :
    cancel_payment_agreement s signer p =
      (s, some (EscrowErr.code ErrorCode.InvalidPayer)) := by
  simp only [cancel_payment_agreement]
  rw [if_neg (not_not_intro hs), if_pos hp]

theorem cancel_already_completed {s : EscrowState} {signer p : Pubkey}
    (hs : signer = s.agreement.payer ∨ signer = s.agreement.receiver)
    (hp : p = s.agreement.payer) (hc : s.agreement.is_completed = true) :
    cancel_payment_agreement s signer p =
      (s, some (EscrowErr.code ErrorCode.AgreementAlreadyCompleted)) := by
  simp only [cancel_payment_agreement]
  rw [if_neg (not_not_intro hs), if_neg (not_not_intro hp), if_pos hc]

theorem cancel_already_cancelled {s : EscrowState} {signer p : Pubkey}
    (hs : signer = s.agreement.payer ∨ signer = s.agreement.receiver)
    (hp : p = s.agreement.payer) (hco : s.agreement.is_completed = false)
    (hca : s.agreement.is_cancelled = true) :
    cancel_payment_agreement s signer p =
      (s, some (EscrowErr.code ErrorCode.AgreementAlreadyCancelled)) := by
  simp only [cancel_payment_agreement]
  rw [if_neg (not_not_intro hs), if_neg (not_not_intro hp),
    if_neg (by simp [hco]), if_pos hca]

theorem cancel_payer_pending {s : EscrowState} {signer p : Pubkey}
    (hsp : signer = s.agreement.payer) (hp : p = s.agreement.payer)
    (hco : s.agreement.is_completed = false)
    (hca : s.agreement.is_cancelled = false)
    (hrw : s.agreement.receiver_requested_cancel = false) :
    cancel_payment_agreement s signer p =
      ({ s with agreement :=
          { s.agreement with payer_requested_cancel := true } }, none) := by
  simp only [cancel_payment_agreement]
  rw [if_neg (not_not_intro (Or.inl hsp)), if_neg (not_not_intro hp),
    if_neg (by simp [hco]), if_neg (by simp [hca])]
  simp [hsp, hrw]

theorem cancel_payer_cancels {s : EscrowState} {signer p : Pubkey}
    (hsp : signer = s.agreement.payer) (hp : p = s.agreement.payer)
    (hco : s.agreement.is_completed = false)
    (hca : s.agreement.is_cancelled = false)
    (hrw : s.agreement.receiver_requested_cancel = true)
    (hb1 : s.agreement.amount ≤ s.custody)
    (hb2 : s.payerBal + s.agreement.amount < U64LIMIT) :
    cancel_payment_agreement s signer p =
      ({ s with
          agreement :=
            { s.agreement with
                payer_requested_cancel := true, is_cancelled := true },
          custody := s.custody - s.agreement.amount,
          payerBal := s.payerBal + s.agreement.amount }, none) := by
  simp only [cancel_payment_agreement]
  rw [if_neg (not_not_intro (Or.inl hsp)), if_neg (not_not_intro hp),
    if_neg (by simp [hco]), if_neg (by simp [hca])]
  simp [hsp, hrw, transferLamports_ok hb1 hb2]

theorem cancel_receiver_pending {s : EscrowState} {signer p : Pubkey}
    (hns : ¬ (signer = s.agreement.payer)) (hsr : signer = s.agreement.receiver)
    (hp : p = s.agreement.payer) (hco : s.agreement.is_completed = false)
    (hca : s.agreement.is_cancelled = false)
    (hpw : s.agreement.payer_requested_cancel = false) :
    cancel_payment_agreement s signer p =
      ({ s with agreement :=
          { s.agreement with receiver_requested_cancel := true } }, none) := by
  simp only [cancel_payment_agreement]
  rw [if_neg (not_not_intro (Or.inr hsr)), if_neg (not_not_intro hp),
    if_neg (by simp [hco]), if_neg (by simp [hca])]
  have hns' : ¬ (s.agreement.receiver = s.agreement.payer) := by
    rw [← hsr]; exact hns
  simp [hsr, hns', hpw]

theorem cancel_receiver_cancels {s : EscrowState} {signer p : Pubkey}
    (hns : ¬ (signer = s.agreement.payer)) (hsr : signer = s.agreement.receiver)
    (hp : p = s.agreement.payer) (hco : s.agreement.is_completed = false)
    (hca : s.agreement.is_cancelled = false)
    (hpw : s.agreement.payer_requested_cancel = true)
    (hb1 : s.agreement.amount ≤ s.custody)
    (hb2 : s.payerBal + s.agreement.amount < U64LIMIT) :
    cancel_payment_agreement s signer p =
      ({ s with
          agreement :=
            { s.agreement with
                receiver_requested_cancel := true, is_cancelled := true },
          custody := s.custody - s.agreement.amount,
          payerBal := s.payerBal + s.agreement.amount }, none) := by
  simp only [cancel_payment_agreement]
  rw [if_neg (not_not_intro (Or.inr hsr)), if_neg (not_not_intro hp),
    if_neg (by simp [hco]), if_neg (by simp [hca])]
  have hns' : ¬ (s.agreement.receiver = s.agreement.payer) := by
    rw [← hsr]; exact hns
  simp [hsr, hns', hpw, transferLamports_ok hb1 hb2]

theorem refComplete_no_referee {s : EscrowState} {signer p r : Pubkey}
    (h : s.agreement.referee = none) :
    referee_intervene_complete_payment_agreement s signer p r =
      (s, some (EscrowErr.code ErrorCode.Unauthorized)) := by
  simp only [referee_intervene_complete_payment_agreement]
  rw [h]

theorem refComplete_wrong_referee {s : EscrowState} {signer p r ref : Pubkey}
    (h : s.agreement.referee = some ref) (hne : ¬ (ref = signer)) :
    referee_intervene_complete_payment_agreement s signer p r =
      (s, some (EscrowErr.code ErrorCode.Unauthorized)) := by
  simp only [referee_intervene_complete_payment_agreement]
  rw [h]; dsimp only
  rw [if_pos hne]

theorem refComplete_invalid_payer {s : EscrowState} {signer p r : Pubkey}
    (h : s.agreement.referee = some signer) (hp : ¬ (p = s.agreement.payer)) :
    referee_intervene_complete_payment_agreement s signer p r =
      (s, some (EscrowErr.code ErrorCode.InvalidPayer)) := by
  simp only [referee_intervene_complete_payment_agreement]
  rw [h]; dsimp only
  rw [if_neg (not_not_intro rfl), if_pos hp]

theorem refComplete_invalid_receiver {s : EscrowState} {signer p r : Pubkey}
    (h : s.agreement.referee = some signer) (hp : p = s.agreement.payer)
    (hr : ¬ (r = s.agreement.receiver)) :
    referee_intervene_complete_payment_agreement s signer p r =
      (s, some (EscrowErr.code ErrorCode.InvalidReceiver)) := by
  simp only [referee_intervene_complete_payment_agreement]
  rw [h]; dsimp only
  rw [if_neg (not_not_intro rfl), if_neg (not_not_intro hp), if_pos hr]

theorem refComplete_already_completed {s : EscrowState} {signer p r : Pubkey}
    (h : s.agreement.referee = some signer) (hp : p = s.agreement.payer)
    (hr : r = s.agreement.receiver) (hc : s.agreement.is_completed = true) :
    referee_intervene_complete_payment_agreement s signer p r =
      (s, some (EscrowErr.code ErrorCode.AgreementAlreadyCompleted)) := by
  simp only [referee_intervene_complete_payment_agreement]
  rw [h]; dsimp only
  rw [if_neg (not_not_intro rfl), if_neg (not_not_intro hp),
    if_neg (not_not_intro hr), if_pos hc]

theorem refComplete_already_cancelled {s : EscrowState} {signer p r : Pubkey}
    (h : s.agreement.referee = some signer) (hp : p = s.agreement.payer)
    (hr : r = s.agreement.receiver) (hco : s.agreement.is_completed = false)
    (hca : s.agreement.is_cancelled = true) :
    referee_intervene_complete_payment_agreement s signer p r =
      (s, some (EscrowErr.code ErrorCode.AgreementAlreadyCancelled)) := by
  simp only [referee_intervene_complete_payment_agreement]
  rw [h]; dsimp only
  rw [if_neg (not_not_intro rfl), if_neg (not_not_intro hp),
    if_neg (not_not_intro hr), if_neg (by simp [hco]), if_pos hca]

theorem refComplete_success {s : EscrowState} {signer p r : Pubkey}
    (h : s.agreement.referee = some signer) (hp : p = s.agreement.payer)
    (hr : r = s.agreement.receiver) (hco : s.agreement.is_completed = false)
    (hca : s.agreement.is_cancelled = false)
    (hb1 : s.agreement.amount ≤ s.custody)
    (hb2 : s.receiverBal + s.agreement.amount < U64LIMIT) :
    referee_intervene_complete_payment_agreement s signer p r =
      ({ s with
          agreement :=
            { s.agreement with
                is_completed := true, is_referee_intervened := true },
          custody := s.custody - s.agreement.amount,
          receiverBal := s.receiverBal + s.agreement.amount }, none) := by
  simp only [referee_intervene_complete_payment_agreement]
  rw [h]; dsimp only
  rw [if_neg (not_not_intro rfl), if_neg (not_not_intro hp),
    if_neg (not_not_intro hr), if_neg (by simp [hco]), if_neg (by simp [hca]),
    transferLamports_ok hb1 hb2]

theorem refCancel_no_referee {s : EscrowState} {signer p : Pubkey}
    (h : s.agreement.referee = none) :
    referee_intervene_cancel_payment_agreement s signer p =
      (s, some (EscrowErr.code ErrorCode.Unauthorized)) := by
  simp only [referee_intervene_cancel_payment_agreement]
  rw [h]

theorem refCancel_wrong_referee {s : EscrowState} {signer p ref : Pubkey}
    (h : s.agreement.referee = some ref) (hne : ¬ (ref = signer)) :
    referee_intervene_cancel_payment_agreement s signer p =
      (s, some (EscrowErr.code ErrorCode.Unauthorized)) := by
  simp only [referee_intervene_cancel_payment_agreement]
  rw [h]; dsimp only
  rw [if_pos hne]

theorem refCancel_invalid_payer {s : EscrowState} {signer p : Pubkey}
    (h : s.agreement.referee = some signer) (hp : ¬ (p = s.agreement.payer)) :
    referee_intervene_cancel_payment_agreement s signer p =
      (s, some (EscrowErr.code ErrorCode.InvalidPayer)) := by
  simp only [referee_intervene_cancel_payment_agreement]
  rw [h]; dsimp only
  rw [if_neg (not_not_intro rfl), if_pos hp]

theorem refCancel_already_completed {s : EscrowState} {signer p : Pubkey}
    (h : s.agreement.referee = some signer) (hp : p = s.agreement.payer)
    (hc : s.agreement.is_completed = true) :
    referee_intervene_cancel_payment_agreement s signer p =
      (s, some (EscrowErr.code ErrorCode.AgreementAlreadyCompleted)) := by
  simp only [referee_intervene_cancel_payment_agreement]
  rw [h]; dsimp only
  rw [if_neg (not_not_intro rfl), if_neg (not_not_intro hp), if_pos hc]

theorem refCancel_already_cancelled {s : EscrowState} {signer p : Pubkey}
    (h : s.agreement.referee = some signer) (hp : p = s.agreement.payer)
    (hco : s.agreement.is_completed = false)
    (hca : s.agreement.is_cancelled = true) :
    referee_intervene_cancel_payment_agreement s signer p =
      (s, some (EscrowErr.code ErrorCode.AgreementAlreadyCancelled)) := by
  simp only [referee_intervene_cancel_payment_agreement]
  rw [h]; dsimp only
  rw [if_neg (not_not_intro rfl), if_neg (not_not_intro hp),
    if_neg (by simp [hco]), if_pos hca]

theorem refCancel_success {s : EscrowState} {signer p : Pubkey}
    (h : s.agreement.referee = some signer) (hp : p = s.agreement.payer)
    (hco : s.agreement.is_completed = false)
    (hca : s.agreement.is_cancelled = false)
    (hb1 : s.agreement.amount ≤ s.custody)
    (hb2 : s.payerBal + s.agreement.amount < U64LIMIT) :
    referee_intervene_cancel_payment_agreement s signer p =
      ({ s with
          agreement :=
            { s.agreement with
                is_cancelled := true, is_referee_intervened := true },
          custody := s.custody - s.agreement.amount,
          payerBal := s.payerBal + s.agreement.amount }, none) := by
  simp only [referee_intervene_cancel_payment_agreement]
  rw [h]; dsimp only
  rw [if_neg (not_not_intro rfl), if_neg (not_not_intro hp),
    if_neg (by simp [hco]), if_neg (by simp [hca]),
    transferLamports_ok hb1 hb2]

theorem withdraw_unauthorized {s : EscrowState} {payerSigner : Pubkey} {now : Int}
    (h : ¬ (payerSigner = s.agreement.payer)) :
    withdraw_expired_funds s payerSigner now =
      (s, some (EscrowErr.code ErrorCode.Unauthorized)) := by
  simp only [withdraw_expired_funds]
  rw [if_pos h]

theorem withdraw_no_expiration {s : EscrowState} {payerSigner : Pubkey} {now : Int}
    (hsig : payerSigner = s.agreement.payer)
    (h : s.agreement.expiration_timestamp = none) :
    withdraw_expired_funds s payerSigner now =
      (s, some (EscrowErr.code ErrorCode.PaymentAgreementNotExpired)) := by
  simp only [withdraw_expired_funds]
  rw [if_neg (not_not_intro hsig), h]

theorem withdraw_not_expired {s : EscrowState} {payerSigner : Pubkey}
    {now e : Int} (hsig : payerSigner = s.agreement.payer)
    (h : s.agreement.expiration_timestamp = some e) (hle : ¬ (now > e)) :
    withdraw_expired_funds s payerSigner now =
      (s, some (EscrowErr.code ErrorCode.PaymentAgreementNotExpired)) := by
  simp only [withdraw_expired_funds]
  rw [if_neg (not_not_intro hsig), h]; dsimp only
  rw [if_pos hle]

theorem withdraw_already_completed {s : EscrowState} {payerSigner : Pubkey}
    {now e : Int} (hsig : payerSigner = s.agreement.payer)
    (h : s.agreement.expiration_timestamp = some e) (hgt : now > e)
    (hc : s.agreement.is_completed = true) :
    withdraw_expired_funds s payerSigner now =
      (s, some (EscrowErr.code ErrorCode.AgreementAlreadyCompleted)) := by
  simp only [withdraw_expired_funds]
  rw [if_neg (not_not_intro hsig), h]; dsimp only
  rw [if_neg (not_not_intro hgt), if_pos hc]

theorem withdraw_already_cancelled {s : EscrowState} {payerSigner : Pubkey}
    {now e : Int} (hsig : payerSigner = s.agreement.payer)
    (h : s.agreement.expiration_timestamp = some e) (hgt : now > e)
    (hco : s.agreement.is_completed = false)
    (hca : s.agreement.is_cancelled = true) :
    withdraw_expired_funds s payerSigner now =
      (s, some (EscrowErr.code ErrorCode.AgreementAlreadyCancelled)) := by
  simp only [withdraw_expired_funds]
  rw [if_neg (not_not_intro hsig), h]; dsimp only
  rw [if_neg (not_not_intro hgt), if_neg (by simp [hco]), if_pos hca]

theorem withdraw_success {s : EscrowState} {payerSigner : Pubkey} {now e : Int}
    (hsig : payerSigner = s.agreement.payer)
    (h : s.agreement.expiration_timestamp = some e) (hgt : now > e)
    (hco : s.agreement.is_completed = false)
    (hca : s.agreement.is_cancelled = false)
    (hb1 : s.agreement.amount ≤ s.custody)
    (hb2 : s.payerBal + s.custody < U64LIMIT) :
    withdraw_expired_funds s payerSigner now =
      ({ s with
          custody := 0, payerBal := s.payerBal + s.custody,
          closed := true }, none) := by
  simp only [withdraw_expired_funds]
  rw [if_neg (not_not_intro hsig), h]; dsimp only
  rw [if_neg (not_not_intro hgt), if_neg (by simp [hco]), if_neg (by simp [hca]),
    transferLamports_ok hb1 (by omega)]
  dsimp only
  rw [if_pos (by omega)]
  have hpc : s.payerBal + s.agreement.amount + (s.custody - s.agreement.amount) =
      s.payerBal + s.custody := by omega
  rw [hpc]

/-- C2 (amended): once an agreement is completed or cancelled, every call
to approve, cancel or either referee intervention fails and returns the
state unchanged; a call whose authorization and identity-binding guards
pass fails precisely with `AgreementAlreadyCompleted` (when completed) or
`AgreementAlreadyCancelled` (when cancelled). -/
theorem terminal_calls_all_fail (s : EscrowState)
    (hterm : s.agreement.is_completed = true ∨ s.agreement.is_cancelled = true) :
    (∀ signer p r, ∃ e, approve_payment_agreement s signer p r = (s, some e)) ∧
    (∀ signer p, ∃ e, cancel_payment_agreement s signer p = (s, some e)) ∧
    (∀ signer p r, ∃ e,
      referee_intervene_complete_payment_agreement s signer p r = (s, some e)) ∧
    (∀ signer p, ∃ e,
      referee_intervene_cancel_payment_agreement s signer p = (s, some e)) ∧
    (∀ signer p r, (signer = s.agreement.payer ∨ signer = s.agreement.receiver) →
      p = s.agreement.payer → r = s.agreement.receiver →
      approve_payment_agreement s signer p r = (s, some (terminalError s))) ∧
    (∀ signer p, (signer = s.agreement.payer ∨ signer = s.agreement.receiver) →
      p = s.agreement.payer →
      cancel_payment_agreement s signer p = (s, some (terminalError s))) ∧
    (∀ signer p r, s.agreement.referee = some signer →
      p = s.agreement.payer → r = s.agreement.receiver →
      referee_intervene_complete_payment_agreement s signer p r =
        (s, some (terminalError s))) ∧
    (∀ signer p, s.agreement.referee = some signer →
      p = s.agreement.payer →
      referee_intervene_cancel_payment_agreement s signer p =
        (s, some (terminalError s))) := by
  refine ⟨?_, ?_, ?_, ?_, ?_, ?_, ?_, ?_⟩
  · intro signer p r
    by_cases h1 : signer = s.agreement.payer ∨ signer = s.agreement.receiver
    · by_cases h2 : p = s.agreement.payer
      · by_cases h3 : r = s.agreement.receiver
        · cases hc : s.agreement.is_completed with
          | true => exact ⟨_, approve_already_completed h1 h2 h3 hc⟩
          | false =>
            rcases hterm with ht | ht
            · exact absurd ht (by simp [hc])
            · exact ⟨_, approve_already_cancelled h1 h2 h3 hc ht⟩
        · exact ⟨_, approve_invalid_receiver h1 h2 h3⟩
      · exact ⟨_, approve_invalid_payer h1 h2⟩
    · exact ⟨_, approve_unauthorized h1⟩
  · intro signer p
    by_cases h1 : signer = s.agreement.payer ∨ signer = s.agreement.receiver
    · by_cases h2 : p = s.agreement.payer
      · cases hc : s.agreement.is_completed with
        | true => exact ⟨_, cancel_already_completed h1 h2 hc⟩
        | false =>
          rcases hterm with ht | ht
          · exact absurd ht (by simp [hc])
          · exact ⟨_, cancel_already_cancelled h1 h2 hc ht⟩
      · exact ⟨_, cancel_invalid_payer h1 h2⟩
    · exact ⟨_, cancel_unauthorized h1⟩
  · intro signer p r
    rcases href : s.agreement.referee with _ | ref
    · exact ⟨_, refComplete_no_referee href⟩
    · by_cases h1 : ref = signer
      · subst h1
        by_cases h2 : p = s.agreement.payer
        · by_cases h3 : r = s.agreement.receiver
          · cases hc : s.agreement.is_completed with
            | true => exact ⟨_, refComplete_already_completed href h2 h3 hc⟩
            | false =>
              rcases hterm with ht | ht
              · exact absurd ht (by simp [hc])
              · exact ⟨_, refComplete_already_cancelled href h2 h3 hc ht⟩
          · exact ⟨_, refComplete_invalid_receiver href h2 h3⟩
        · exact ⟨_, refComplete_invalid_payer href h2⟩
      · exact ⟨_, refComplete_wrong_referee href h1⟩
  · intro signer p
    rcases href : s.agreement.referee with _ | ref
    · exact ⟨_, refCancel_no_referee href⟩
    · by_cases h1 : ref = signer
      · subst h1
        by_cases h2 : p = s.agreement.payer
        · cases hc : s.agreement.is_completed with
          | true => exact ⟨_, refCancel_already_completed href h2 hc⟩
          | false =>
            rcases hterm with ht | ht
            · exact absurd ht (by simp [hc])
            · exact ⟨_, refCancel_already_cancelled href h2 hc ht⟩
        · exact ⟨_, refCancel_invalid_payer href h2⟩
      · exact ⟨_, refCancel_wrong_referee href h1⟩
  · intro signer p r hs hp hr
    cases hc : s.agreement.is_completed with
    | true =>
      rw [approve_already_completed hs hp hr hc]
      simp [terminalError, hc]
    | false =>
      rcases hterm with ht | ht
      · exact absurd ht (by simp [hc])
      · rw [approve_already_cancelled hs hp hr hc ht]
        simp [terminalError, hc]
  · intro signer p hs hp
    cases hc : s.agreement.is_completed with
    | true =>
      rw [cancel_already_completed hs hp hc]
      simp [terminalError, hc]
    | false =>
      rcases hterm with ht | ht
      · exact absurd ht (by simp [hc])
      · rw [cancel_already_cancelled hs hp hc ht]
        simp [terminalError, hc]
  · intro signer p r hs hp hr
    cases hc : s.agreement.is_completed with
    | true =>
      rw [refComplete_already_completed hs hp hr hc]
      simp [terminalError, hc]
    | false =>
      rcases hterm with ht | ht
      · exact absurd ht (by simp [hc])
      · rw [refComplete_already_cancelled hs hp hr hc ht]
        simp [terminalError, hc]
  · intro signer p hs hp
    cases hc : s.agreement.is_completed with
    | true =>
      rw [refCancel_already_completed hs hp hc]
      simp [terminalError, hc]
    | false =>
      rcases hterm with ht | ht
      · exact absurd ht (by simp [hc])
      · rw [refCancel_already_cancelled hs hp hc ht]
        simp [terminalError, hc]

/-- Counterexample to C2 as stated: on a completed agreement a call by a
signer who is neither payer nor receiver fails with `Unauthorized`, not
with `AgreementAlreadyCompleted` or `AgreementAlreadyCancelled`. -/
theorem terminal_error_identity_cex :
    completedState.agreement.is_completed = true ∧
    approve_payment_agreement completedState 99 1 2 =
      (completedState, some (EscrowErr.code ErrorCode.Unauthorized)) ∧
    EscrowErr.code ErrorCode.Unauthorized ≠
      EscrowErr.code ErrorCode.AgreementAlreadyCompleted ∧
    EscrowErr.code ErrorCode.Unauthorized ≠
      EscrowErr.code ErrorCode.AgreementAlreadyCancelled := by decide

/-- Witness for C2: a guard-passing approval on the concrete completed
state fails with the already-completed error and changes nothing. -/
theorem terminal_calls_all_fail_witness :
    approve_payment_agreement completedState 1 1 2 =
      (completedState, some (terminalError completedState)) :=
  (terminal_calls_all_fail completedState (Or.inl (by decide))).2.2.2.2.1 1 1 2
    (Or.inl (by decide)) (by decide) (by decide)

/-- C10: in approve, cancel and both referee interventions the
authorization and identity-binding guards run before the terminal-state
guards: on a completed or cancelled agreement an unentitled caller gets
`Unauthorized` and a mismatched supplied payer/receiver gets
`InvalidPayer`/`InvalidReceiver`, never the already-completed/cancelled
errors. -/
theorem auth_checked_before_terminal (s : EscrowState) (signer p r : Pubkey)
    (hterm : s.agreement.is_completed = true ∨ s.agreement.is_cancelled = true) :
    (¬ (signer = s.agreement.payer ∨ signer = s.agreement.receiver) →
      approve_payment_agreement s signer p r =
        (s, some (EscrowErr.code ErrorCode.Unauthorized))) ∧
    ((signer = s.agreement.payer ∨ signer = s.agreement.receiver) →
      ¬ (p = s.agreement.payer) →
      approve_payment_agreement s signer p r =
        (s, some (EscrowErr.code ErrorCode.InvalidPayer))) ∧
    ((signer = s.agreement.payer ∨ signer = s.agreement.receiver) →
      p = s.agreement.payer → ¬ (r = s.agreement.receiver) →
      approve_payment_agreement s signer p r =
        (s, some (EscrowErr.code ErrorCode.InvalidReceiver))) ∧
    (¬ (signer = s.agreement.payer ∨ signer = s.agreement.receiver) →
      cancel_payment_agreement s signer p =
        (s, some (EscrowErr.code ErrorCode.Unauthorized))) ∧
    ((signer = s.agreement.payer ∨ signer = s.agreement.receiver) →
      ¬ (p = s.agreement.payer) →
      cancel_payment_agreement s signer p =
        (s, some (EscrowErr.code ErrorCode.InvalidPayer))) ∧
    (s.agreement.referee ≠ some signer →
      referee_intervene_complete_payment_agreement s signer p r =
        (s, some (EscrowErr.code ErrorCode.Unauthorized))) ∧
    (s.agreement.referee = some signer → ¬ (p = s.agreement.payer) →
      referee_intervene_complete_payment_agreement s signer p r =
        (s, some (EscrowErr.code ErrorCode.InvalidPayer))) ∧
    (s.agreement.referee = some signer → p = s.agreement.payer →
      ¬ (r = s.agreement.receiver) →
      referee_intervene_complete_payment_agreement s signer p r =
        (s, some (EscrowErr.code ErrorCode.InvalidReceiver))) ∧
    (s.agreement.referee ≠ some signer →
      referee_intervene_cancel_payment_agreement s signer p =
        (s, some (EscrowErr.code ErrorCode.Unauthorized))) ∧
    (s.agreement.referee = some signer → ¬ (p = s.agreement.payer) →
      referee_intervene_cancel_payment_agreement s signer p =
        (s, some (EscrowErr.code ErrorCode.InvalidPayer))) := by
  refine ⟨?_, ?_, ?_, ?_, ?_, ?_, ?_, ?_, ?_, ?_⟩
  · exact fun h1 => approve_unauthorized h1
  · exact fun hs hp => approve_invalid_payer hs hp
  · exact fun hs hp hr => approve_invalid_receiver hs hp hr
  · exact fun h1 => cancel_unauthorized h1
  · exact fun hs hp => cancel_invalid_payer hs hp
  · intro hne
    rcases href : s.agreement.referee with _ | ref
    · exact refComplete_no_referee href
    · refine refComplete_wrong_referee href ?_
      intro hh
      exact hne (by rw [href, hh])
  · exact fun hs hp => refComplete_invalid_payer hs hp
  · exact fun hs hp hr => refComplete_invalid_receiver hs hp hr
  · intro hne
    rcases href : s.agreement.referee with _ | ref
    · exact refCancel_no_referee href
    · refine refCancel_wrong_referee href ?_
      intro hh
      exact hne (by rw [href, hh])
  · exact fun hs hp => refCancel_invalid_payer hs hp

/-- Witness for C10: on the concrete completed state an unentitled caller
receives `Unauthorized` rather than a terminal-state error. -/
theorem auth_checked_before_terminal_witness :
    approve_payment_agreement completedState 99 1 2 =
      (completedState, some (EscrowErr.code ErrorCode.Unauthorized)) :=
  (auth_checked_before_terminal completedState 99 1 2 (Or.inl (by decide))).1
    (by decide)

theorem transferLamports_ok_inv {src dst a c d : Nat}
    (h : transferLamports src dst a = Except.ok (c, d)) :
    a ≤ src ∧ dst + a < U64LIMIT ∧ c = src - a ∧ d = dst + a := by
  unfold transferLamports at h
  split_ifs at h with h1 h2
  injection h with h'
  injection h' with hc hd
  exact ⟨h1, h2, hc.symm, hd.symm⟩

/-- C8: on a solvent state every one of the six instructions, whenever it
returns an error, returns the agreement record and all balances exactly as
they were (all guards precede every mutation and transfer). -/
theorem error_leaves_state_unchanged (s : EscrowState) (hsolv : Solvent s) :
    (∀ payer name receiver amount exp referee now s' e,
      create_payment_agreement s payer name receiver amount exp referee now =
        (s', some e) → s' = s) ∧
    (∀ signer p r s' e,
      approve_payment_agreement s signer p r = (s', some e) → s' = s) ∧
    (∀ signer p s' e,
      cancel_payment_agreement s signer p = (s', some e) → s' = s) ∧
    (∀ signer p r s' e,
      referee_intervene_complete_payment_agreement s signer p r = (s', some e) →
      s' = s) ∧
    (∀ signer p s' e,
      referee_intervene_cancel_payment_agreement s signer p = (s', some e) →
      s' = s) ∧
    (∀ payer now s' e,
      withdraw_expired_funds s payer now = (s', some e) → s' = s) := by
  obtain ⟨hv1, hv2, hv3⟩ := hsolv
  refine ⟨?_, ?_, ?_, ?_, ?_, ?_⟩
  · intro payer name receiver amount exp referee now s' e h
    simp only [create_payment_agreement] at h
    split_ifs at h with g1 g2 g3 g4 g5 g6
    all_goals try (rw [transferLamports_ok g6 (by omega)] at h; dsimp only at h)
    all_goals injection h with h1 h2
    all_goals try exact Option.noConfusion h2
    all_goals exact h1.symm
  · intro signer p r s' e h
    by_cases h1 : signer = s.agreement.payer ∨ signer = s.agreement.receiver
    · by_cases h2 : p = s.agreement.payer
      · by_cases h3 : r = s.agreement.receiver
        · cases hc : s.agreement.is_completed with
          | true =>
            rw [approve_already_completed h1 h2 h3 hc] at h
            injection h with h1' h2'; exact h1'.symm
          | false =>
            cases hx : s.agreement.is_cancelled with
            | true =>
              rw [approve_already_cancelled h1 h2 h3 hc hx] at h
              injection h with h1' h2'; exact h1'.symm
            | false =>
              by_cases hsp : signer = s.agreement.payer
              · cases hra : s.agreement.receiver_approved with
                | false =>
                  rw [approve_payer_pending hsp h2 h3 hc hx hra] at h
                  injection h with h1' h2'; exact Option.noConfusion h2'
                | true =>
                  rw [approve_payer_completes hsp h2 h3 hc hx hra hv1
                    (by omega)] at h
                  injection h with h1' h2'; exact Option.noConfusion h2'
              · have hsr : signer = s.agreement.receiver := h1.resolve_left hsp
                cases hpa : s.agreement.payer_approved with
                | false =>
                  rw [approve_receiver_pending hsp hsr h2 h3 hc hx hpa] at h
                  injection h with h1' h2'; exact Option.noConfusion h2'
                | true =>
                  rw [approve_receiver_completes hsp hsr h2 h3 hc hx hpa hv1
                    (by omega)] at h
                  injection h with h1' h2'; exact Option.noConfusion h2'
        · rw [approve_invalid_receiver h1 h2 h3] at h
          injection h with h1' h2'; exact h1'.symm
      · rw [approve_invalid_payer h1 h2] at h
        injection h with h1' h2'; exact h1'.symm
    · rw [approve_unauthorized h1] at h
      injection h with h1' h2'; exact h1'.symm
  · intro signer p s' e h
    by_cases h1 : signer = s.agreement.payer ∨ signer = s.agreement.receiver
    · by_cases h2 : p = s.agreement.payer
      · cases hc : s.agreement.is_completed with
        | true =>
          rw [cancel_already_completed h1 h2 hc] at h
          injection h with h1' h2'; exact h1'.symm
        | false =>
          cases hx : s.agreement.is_cancelled with
          | true =>
            rw [cancel_already_cancelled h1 h2 hc hx] at h
            injection h with h1' h2'; exact h1'.symm
          | false =>
            by_cases hsp : signer = s.agreement.payer
            · cases hrw : s.agreement.receiver_requested_cancel with
              | false =>
                rw [cancel_payer_pending hsp h2 hc hx hrw] at h
                injection h with h1' h2'; exact Option.noConfusion h2'
              | true =>
                rw [cancel_payer_cancels hsp h2 hc hx hrw hv1 (by omega)] at h
                injection h with h1' h2'; exact Option.noConfusion h2'
            · have hsr : signer = s.agreement.receiver := h1.resolve_left hsp
              cases hpw : s.agreement.payer_requested_cancel with
              | false =>
                rw [cancel_receiver_pending hsp hsr h2 hc hx hpw] at h
                injection h with h1' h2'; exact Option.noConfusion h2'
              | true =>
                rw [cancel_receiver_cancels hsp hsr h2 hc hx hpw hv1
                  (by omega)] at h
                injection h with h1' h2'; exact Option.noConfusion h2'
      · rw [cancel_invalid_payer h1 h2] at h
        injection h with h1' h2'; exact h1'.symm
    · rw [cancel_unauthorized h1] at h
      injection h with h1' h2'; exact h1'.symm
  · intro signer p r s' e h
    rcases href : s.agreement.referee with _ | ref
    · rw [refComplete_no_referee href] at h
      injection h with h1' h2'; exact h1'.symm
    · by_cases hrr : ref = signer
      · subst hrr
        by_cases h2 : p = s.agreement.payer
        · by_cases h3 : r = s.agreement.receiver
          · cases hc : s.agreement.is_completed with
            | true =>
              rw [refComplete_already_completed href h2 h3 hc] at h
              injection h with h1' h2'; exact h1'.symm
            | false =>
              cases hx : s.agreement.is_cancelled with
              | true =>
                rw [refComplete_already_cancelled href h2 h3 hc hx] at h
                injection h with h1' h2'; exact h1'.symm
              | false =>
                rw [refComplete_success href h2 h3 hc hx hv1 (by omega)] at h
                injection h with h1' h2'; exact Option.noConfusion h2'
          · rw [refComplete_invalid_receiver href h2 h3] at h
            injection h with h1' h2'; exact h1'.symm
        · rw [refComplete_invalid_payer href h2] at h
          injection h with h1' h2'; exact h1'.symm
      · rw [refComplete_wrong_referee href hrr] at h
        injection h with h1' h2'; exact h1'.symm
  · intro signer p s' e h
    rcases href : s.agreement.referee with _ | ref
    · rw [refCancel_no_referee href] at h
      injection h with h1' h2'; exact h1'.symm
    · by_cases hrr : ref = signer
      · subst hrr
        by_cases h2 : p = s.agreement.payer
        · cases hc : s.agreement.is_completed with
          | true =>
            rw [refCancel_already_completed href h2 hc] at h
            injection h with h1' h2'; exact h1'.symm
          | false =>
            cases hx : s.agreement.is_cancelled with
            | true =>
              rw [refCancel_already_cancelled href h2 hc hx] at h
              injection h with h1' h2'; exact h1'.symm
            | false =>
              rw [refCancel_success href h2 hc hx hv1 (by omega)] at h
              injection h with h1' h2'; exact Option.noConfusion h2'
        · rw [refCancel_invalid_payer href h2] at h
          injection h with h1' h2'; exact h1'.symm
      · rw [refCancel_wrong_referee href hrr] at h
        injection h with h1' h2'; exact h1'.symm
  · intro payer now s' e h
    by_cases h1 : payer = s.agreement.payer
    · rcases hexp : s.agreement.expiration_timestamp with _ | ex
      · rw [withdraw_no_expiration h1 hexp] at h
        injection h with h1' h2'; exact h1'.symm
      · by_cases hgt : now > ex
        · cases hc : s.agreement.is_completed with
          | true =>
            rw [withdraw_already_completed h1 hexp hgt hc] at h
            injection h with h1' h2'; exact h1'.symm
          | false =>
            cases hx : s.agreement.is_cancelled with
            | true =>
              rw [withdraw_already_cancelled h1 hexp hgt hc hx] at h
              injection h with h1' h2'; exact h1'.symm
            | false =>
              rw [withdraw_success h1 hexp hgt hc hx hv1 hv2] at h
              injection h with h1' h2'; exact Option.noConfusion h2'
        · rw [withdraw_not_expired h1 hexp hgt] at h
          injection h with h1' h2'; exact h1'.symm
    · rw [withdraw_unauthorized h1] at h
      injection h with h1' h2'; exact h1'.symm

/-- Witness for C8: on the concrete solvent open state an unauthorized
approval attempt leaves the state component unchanged. -/
theorem error_leaves_state_unchanged_witness :
    (approve_payment_agreement openState 99 1 2).1 = openState :=
  (error_leaves_state_unchanged openState
      (by refine ⟨by decide, by decide, by decide⟩)).2.1 99 1 2
    (approve_payment_agreement openState 99 1 2).1
    (EscrowErr.code ErrorCode.Unauthorized) (by decide)

/-- C9: a successful `withdraw_expired_funds` moves the full custody
balance (which covers `amount`) to the payer and closes the record while
writing no agreement field: at disbursement and destruction every flag
retains its prior value. -/
theorem withdraw_preserves_flags (s s' : EscrowState) (payer : Pubkey)
    (now : Int) (h : withdraw_expired_funds s payer now = (s', none)) :
    s'.agreement = s.agreement ∧ s'.closed = true ∧ s'.custody = 0 ∧
    s.agreement.amount ≤ s.custody ∧ s'.payerBal = s.payerBal + s.custody ∧
    s'.receiverBal = s.receiverBal := by
  by_cases h1 : payer = s.agreement.payer
  · rcases hexp : s.agreement.expiration_timestamp with _ | ex
    · rw [withdraw_no_expiration h1 hexp] at h
      injection h with h1' h2'; exact Option.noConfusion h2'
    · by_cases hgt : now > ex
      · cases hcm : s.agreement.is_completed with
        | true =>
          rw [withdraw_already_completed h1 hexp hgt hcm] at h
          injection h with h1' h2'; exact Option.noConfusion h2'
        | false =>
          cases hx : s.agreement.is_cancelled with
          | true =>
            rw [withdraw_already_cancelled h1 hexp hgt hcm hx] at h
            injection h with h1' h2'; exact Option.noConfusion h2'
          | false =>
            simp only [withdraw_expired_funds] at h
            rw [if_neg (not_not_intro h1), hexp] at h
            dsimp only at h
            rw [if_neg (not_not_intro hgt), if_neg (by simp [hcm]),
              if_neg (by simp [hx])] at h
            rcases htl : transferLamports s.custody s.payerBal
                s.agreement.amount with e | ⟨c, pb⟩ <;> rw [htl] at h <;>
              dsimp only at h
            · injection h with h1' h2'; exact Option.noConfusion h2'
            · obtain ⟨ha, hb, hcc, hd⟩ := transferLamports_ok_inv htl
              split_ifs at h with hclose
              · injection h with h1' h2'
                subst h1'
                refine ⟨rfl, rfl, rfl, ha, ?_, rfl⟩
                dsimp only
                omega
              · injection h with h1' h2'; exact Option.noConfusion h2'
      · rw [withdraw_not_expired h1 hexp hgt] at h
        injection h with h1' h2'; exact Option.noConfusion h2'
  · rw [withdraw_unauthorized h1] at h
    injection h with h1' h2'; exact Option.noConfusion h2'

/-- Witness for C9: the concrete expired withdrawal leaves the agreement
record untouched. -/
theorem withdraw_preserves_flags_witness :
    (withdraw_expired_funds openState 1 11).1.agreement =
      openState.agreement :=
  (withdraw_preserves_flags openState (withdraw_expired_funds openState 1 11).1
    1 11 (by decide)).1

/-- C3: on an open agreement (with custody covering the amount and no
receiver-balance overflow) referee completion succeeds exactly when the
stored referee is present and equals the caller and the supplied payer and
receiver match the stored ones; an absent or different referee yields
`Unauthorized`; on success — for every combination of prior approval and
cancel-request flags — it sets `is_completed` and `is_referee_intervened`
and moves the full amount from custody to the receiver. -/
theorem referee_complete_characterization (s : EscrowState) (signer p r : Pubkey)
    (hco : s.agreement.is_completed = false)
    (hca : s.agreement.is_cancelled = false)
    (hb1 : s.agreement.amount ≤ s.custody)
    (hb2 : s.receiverBal + s.agreement.amount < U64LIMIT) :
    ((referee_intervene_complete_payment_agreement s signer p r).2 = none ↔
      s.agreement.referee = some signer ∧ p = s.agreement.payer ∧
        r = s.agreement.receiver) ∧
    (s.agreement.referee ≠ some signer →
      referee_intervene_complete_payment_agreement s signer p r =
        (s, some (EscrowErr.code ErrorCode.Unauthorized))) ∧
    (s.agreement.referee = some signer → p = s.agreement.payer →
      r = s.agreement.receiver →
      referee_intervene_complete_payment_agreement s signer p r =
        ({ s with
            agreement := { s.agreement with
              is_completed := true, is_referee_intervened := true },
            custody := s.custody - s.agreement.amount,
            receiverBal := s.receiverBal + s.agreement.amount }, none)) := by
  refine ⟨⟨?_, ?_⟩, ?_, ?_⟩
  · intro hnone
    rcases href : s.agreement.referee with _ | ref
    · rw [refComplete_no_referee href] at hnone
      simp at hnone
    · by_cases hrr : ref = signer
      · subst hrr
        by_cases hp : p = s.agreement.payer
        · by_cases hr : r = s.agreement.receiver
          · exact ⟨rfl, hp, hr⟩
          · rw [refComplete_invalid_receiver href hp hr] at hnone
            simp at hnone
        · rw [refComplete_invalid_payer href hp] at hnone
          simp at hnone
      · rw [refComplete_wrong_referee href hrr] at hnone
        simp at hnone
  · rintro ⟨href, hp, hr⟩
    rw [refComplete_success href hp hr hco hca hb1 hb2]
  · intro hne
    rcases href : s.agreement.referee with _ | ref
    · exact refComplete_no_referee href
    · refine refComplete_wrong_referee href ?_
      intro hh
      exact hne (by rw [href, hh])
  · intro href hp hr
    exact refComplete_success href hp hr hco hca hb1 hb2

/-- Witness for C3: the concrete open agreement's referee (key 3) completes
it in a single call. -/
theorem referee_complete_characterization_witness :
    (referee_intervene_complete_payment_agreement openState 3 1 2).2 = none :=
  (referee_complete_characterization openState 3 1 2 (by decide) (by decide)
      (by decide) (by decide)).1.mpr ⟨by decide, by decide, by decide⟩

/-- C5: on an open agreement (custody covering the amount, no payer-balance
overflow), `cancel_payment_agreement` called by the payer or the receiver
with the correct stored payer supplied sets the caller's
cancellation-request flag, and when after that update both request flags
hold it also sets `is_cancelled` and returns the full amount from custody
to the payer. -/
theorem cancel_sets_flag_and_refunds (s : EscrowState) (signer p : Pubkey)
    (hco : s.agreement.is_completed = false)
    (hca : s.agreement.is_cancelled = false)
    (hb1 : s.agreement.amount ≤ s.custody)
    (hb2 : s.payerBal + s.agreement.amount < U64LIMIT)
    (hp : p = s.agreement.payer) :
    (signer = s.agreement.payer →
      s.agreement.receiver_requested_cancel = false →
      cancel_payment_agreement s signer p =
        ({ s with agreement :=
            { s.agreement with payer_requested_cancel := true } }, none)) ∧
    (signer = s.agreement.payer →
      s.agreement.receiver_requested_cancel = true →
      cancel_payment_agreement s signer p =
        ({ s with
            agreement := { s.agreement with
              payer_requested_cancel := true, is_cancelled := true },
            custody := s.custody - s.agreement.amount,
            payerBal := s.payerBal + s.agreement.amount }, none)) ∧
    (¬ (signer = s.agreement.payer) → signer = s.agreement.receiver →
      s.agreement.payer_requested_cancel = false →
      cancel_payment_agreement s signer p =
        ({ s with agreement :=
            { s.agreement with receiver_requested_cancel := true } }, none)) ∧
    (¬ (signer = s.agreement.payer) → signer = s.agreement.receiver →
      s.agreement.payer_requested_cancel = true →
      cancel_payment_agreement s signer p =
        ({ s with
            agreement := { s.agreement with
              receiver_requested_cancel := true, is_cancelled := true },
            custody := s.custody - s.agreement.amount,
            payerBal := s.payerBal + s.agreement.amount }, none)) := by
  refine ⟨?_, ?_, ?_, ?_⟩
  · exact fun hsp hrw => cancel_payer_pending hsp hp hco hca hrw
  · exact fun hsp hrw => cancel_payer_cancels hsp hp hco hca hrw hb1 hb2
  · exact fun hns hsr hpw => cancel_receiver_pending hns hsr hp hco hca hpw
  · exact fun hns hsr hpw =>
      cancel_receiver_cancels hns hsr hp hco hca hpw hb1 hb2

/-- Witness for C5: the concrete payer's first cancellation request only
sets the payer flag. -/
theorem cancel_sets_flag_and_refunds_witness :
    cancel_payment_agreement openState 1 1 =
      ({ openState with agreement :=
          { openState.agreement with payer_requested_cancel := true } },
        none) :=
  (cancel_sets_flag_and_refunds openState 1 1 (by decide) (by decide)
      (by decide) (by decide) (by decide)).1 (by decide) (by decide)

/-- C6: for a caller equal to the stored payer (on a state whose custody
covers the amount, without balance overflow), `withdraw_expired_funds`
succeeds exactly when an expiration is set, the current time is strictly
past it, and the agreement is not terminal; an absent expiration or a call
at or before the expiration fails with `PaymentAgreementNotExpired` and
changes nothing. -/
theorem withdraw_expired_iff (s : EscrowState) (caller : Pubkey) (now : Int)
    (hc : caller = s.agreement.payer)
    (hb1 : s.agreement.amount ≤ s.custody)
    (hb2 : s.payerBal + s.custody < U64LIMIT) :
    ((withdraw_expired_funds s caller now).2 = none ↔
      (∃ e, s.agreement.expiration_timestamp = some e ∧ e < now) ∧
        s.agreement.is_completed = false ∧ s.agreement.is_cancelled = false) ∧
    ((s.agreement.expiration_timestamp = none ∨
      ∃ e, s.agreement.expiration_timestamp = some e ∧ now ≤ e) →
      withdraw_expired_funds s caller now =
        (s, some (EscrowErr.code ErrorCode.PaymentAgreementNotExpired))) := by
  refine ⟨⟨?_, ?_⟩, ?_⟩
  · intro hnone
    rcases hexp : s.agreement.expiration_timestamp with _ | ex
    · rw [withdraw_no_expiration hc hexp] at hnone
      simp at hnone
    · by_cases hgt : now > ex
      · cases hcm : s.agreement.is_completed with
        | true =>
          rw [withdraw_already_completed hc hexp hgt hcm] at hnone
          simp at hnone
        | false =>
          cases hx : s.agreement.is_cancelled with
          | true =>
            rw [withdraw_already_cancelled hc hexp hgt hcm hx] at hnone
            simp at hnone
          | false => exact ⟨⟨ex, rfl, hgt⟩, rfl, rfl⟩
      · rw [withdraw_not_expired hc hexp hgt] at hnone
        simp at hnone
  · rintro ⟨⟨e, hexp, hlt⟩, hcm, hx⟩
    rw [withdraw_success hc hexp hlt hcm hx hb1 hb2]
  · rintro (hnone | ⟨e, hexp, hle⟩)
    · exact withdraw_no_expiration hc hnone
    · exact withdraw_not_expired hc hexp (by omega)

/-- Witness for C6: at time 11, strictly past the concrete expiration 10,
the payer's withdrawal succeeds. -/
theorem withdraw_expired_iff_witness :
    (withdraw_expired_funds openState 1 11).2 = none :=
  (withdraw_expired_iff openState 1 11 (by decide) (by decide)
      (by decide)).1.mpr ⟨⟨10, by decide, by decide⟩, by decide, by decide⟩

theorem approveAs_completed {t : EscrowState} (sg : Pubkey)
    (hc : t.agreement.is_completed = true) : approveAs t sg = t := by
  unfold approveAs
  by_cases h1 : sg = t.agreement.payer ∨ sg = t.agreement.receiver
  · rw [approve_already_completed h1 rfl rfl hc]
  · rw [approve_unauthorized h1]

theorem approveAs_payer_pending {t : EscrowState} {sg : Pubkey}
    (hsg : sg = t.agreement.payer) (hco : t.agreement.is_completed = false)
    (hca : t.agreement.is_cancelled = false)
    (hra : t.agreement.receiver_approved = false) :
    approveAs t sg =
      { t with agreement := { t.agreement with payer_approved := true } } := by
  unfold approveAs
  rw [approve_payer_pending hsg rfl rfl hco hca hra]

theorem approveAs_payer_completes {t : EscrowState} {sg : Pubkey}
    (hsg : sg = t.agreement.payer) (hco : t.agreement.is_completed = false)
    (hca : t.agreement.is_cancelled = false)
    (hra : t.agreement.receiver_approved = true)
    (hb1 : t.agreement.amount ≤ t.custody)
    (hb2 : t.receiverBal + t.agreement.amount < U64LIMIT) :
    approveAs t sg =
      { t with
          agreement :=
            { t.agreement with payer_approved := true, is_completed := true },
          custody := t.custody - t.agreement.amount,
          receiverBal := t.receiverBal + t.agreement.amount } := by
  unfold approveAs
  rw [approve_payer_completes hsg rfl rfl hco hca hra hb1 hb2]

theorem approveAs_receiver_pending {t : EscrowState} {sg : Pubkey}
    (hns : ¬ (sg = t.agreement.payer)) (hsg : sg = t.agreement.receiver)
    (hco : t.agreement.is_completed = false)
    (hca : t.agreement.is_cancelled = false)
    (hpa : t.agreement.payer_approved = false) :
    approveAs t sg =
      { t with agreement := { t.agreement with receiver_approved := true } } := by
  unfold approveAs
  rw [approve_receiver_pending hns hsg rfl rfl hco hca hpa]

theorem approveAs_receiver_completes {t : EscrowState} {sg : Pubkey}
    (hns : ¬ (sg = t.agreement.payer)) (hsg : sg = t.agreement.receiver)
    (hco : t.agreement.is_completed = false)
    (hca : t.agreement.is_cancelled = false)
    (hpa : t.agreement.payer_approved = true)
    (hb1 : t.agreement.amount ≤ t.custody)
    (hb2 : t.receiverBal + t.agreement.amount < U64LIMIT) :
    approveAs t sg =
      { t with
          agreement :=
            { t.agreement with receiver_approved := true, is_completed := true },
          custody := t.custody - t.agreement.amount,
          receiverBal := t.receiverBal + t.agreement.amount } := by
  unfold approveAs
  rw [approve_receiver_completes hns hsg rfl rfl hco hca hpa hb1 hb2]

/-- C4: on an open agreement approval is idempotent per role and
commutative across roles, and approving from both roles in either order
completes the agreement and pays the receiver exactly the amount. -/
theorem approve_idempotent_commutative (s : EscrowState)
    (hne : s.agreement.payer ≠ s.agreement.receiver)
    (hco : s.agreement.is_completed = false)
    (hca : s.agreement.is_cancelled = false)
    (hb1 : s.agreement.amount ≤ s.custody)
    (hb2 : s.receiverBal + s.agreement.amount < U64LIMIT) :
    approveAs (approveAs s s.agreement.payer) s.agreement.payer =
      approveAs s s.agreement.payer ∧
    approveAs (approveAs s s.agreement.receiver) s.agreement.receiver =
      approveAs s s.agreement.receiver ∧
    approveAs (approveAs s s.agreement.payer) s.agreement.receiver =
      approveAs (approveAs s s.agreement.receiver) s.agreement.payer ∧
    (approveAs (approveAs s s.agreement.payer)
        s.agreement.receiver).agreement.payer_approved = true ∧
    (approveAs (approveAs s s.agreement.payer)
        s.agreement.receiver).agreement.receiver_approved = true ∧
    (approveAs (approveAs s s.agreement.payer)
        s.agreement.receiver).agreement.is_completed = true ∧
    (approveAs (approveAs s s.agreement.payer)
        s.agreement.receiver).receiverBal =
      s.receiverBal + s.agreement.amount := by
  have hns : ¬ (s.agreement.receiver = s.agreement.payer) :=
    fun hh => hne hh.symm
  rcases hpa : s.agreement.payer_approved with _ | _ <;>
    rcases hra : s.agreement.receiver_approved with _ | _
  · -- payer_approved = false, receiver_approved = false
    have e1 : approveAs s s.agreement.payer =
        { s with agreement := { s.agreement with payer_approved := true } } :=
      approveAs_payer_pending rfl hco hca hra
    have e2 : approveAs
        { s with agreement := { s.agreement with payer_approved := true } }
        s.agreement.payer =
        { s with agreement := { s.agreement with payer_approved := true } } :=
      approveAs_payer_pending rfl hco hca hra
    have e3 : approveAs s s.agreement.receiver =
        { s with agreement := { s.agreement with receiver_approved := true } } :=
      approveAs_receiver_pending hns rfl hco hca hpa
    have e4 : approveAs
        { s with agreement := { s.agreement with receiver_approved := true } }
        s.agreement.receiver =
        { s with agreement := { s.agreement with receiver_approved := true } } :=
      approveAs_receiver_pending hns rfl hco hca hpa
    have e5 : approveAs
        { s with agreement := { s.agreement with payer_approved := true } }
        s.agreement.receiver =
        { s with
            agreement := { s.agreement with
              payer_approved := true, receiver_approved := true,
              is_completed := true },
            custody := s.custody - s.agreement.amount,
            receiverBal := s.receiverBal + s.agreement.amount } :=
      approveAs_receiver_completes hns rfl hco hca rfl hb1 hb2
    have e6 : approveAs
        { s with agreement := { s.agreement with receiver_approved := true } }
        s.agreement.payer =
        { s with
            agreement := { s.agreement with
              payer_approved := true, receiver_approved := true,
              is_completed := true },
            custody := s.custody - s.agreement.amount,
            receiverBal := s.receiverBal + s.agreement.amount } :=
      approveAs_payer_completes rfl hco hca rfl hb1 hb2
    rw [e1, e3, e2, e4, e5, e6]
    exact ⟨rfl, rfl, rfl, rfl, rfl, rfl, rfl⟩
  · -- payer_approved = false, receiver_approved = true
    have e1 : approveAs s s.agreement.payer =
        { s with
            agreement :=
              { s.agreement with payer_approved := true, is_completed := true },
            custody := s.custody - s.agreement.amount,
            receiverBal := s.receiverBal + s.agreement.amount } :=
      approveAs_payer_completes rfl hco hca hra hb1 hb2
    have e2 : approveAs
        { s with
            agreement :=
              { s.agreement with payer_approved := true, is_completed := true },
            custody := s.custody - s.agreement.amount,
            receiverBal := s.receiverBal + s.agreement.amount }
        s.agreement.payer =
        { s with
            agreement :=
              { s.agreement with payer_approved := true, is_completed := true },
            custody := s.custody - s.agreement.amount,
            receiverBal := s.receiverBal + s.agreement.amount } :=
      approveAs_completed _ rfl
    have e3 : approveAs s s.agreement.receiver =
        { s with agreement := { s.agreement with receiver_approved := true } } :=
      approveAs_receiver_pending hns rfl hco hca hpa
    have e4 : approveAs
        { s with agreement := { s.agreement with receiver_approved := true } }
        s.agreement.receiver =
        { s with agreement := { s.agreement with receiver_approved := true } } :=
      approveAs_receiver_pending hns rfl hco hca hpa
    have e5 : approveAs
        { s with
            agreement :=
              { s.agreement with payer_approved := true, is_completed := true },
            custody := s.custody - s.agreement.amount,
            receiverBal := s.receiverBal + s.agreement.amount }
        s.agreement.receiver =
        { s with
            agreement :=
              { s.agreement with payer_approved := true, is_completed := true },
            custody := s.custody - s.agreement.amount,
            receiverBal := s.receiverBal + s.agreement.amount } :=
      approveAs_completed _ rfl
    have e6 : approveAs
        { s with agreement := { s.agreement with receiver_approved := true } }
        s.agreement.payer =
        { s with
            agreement := { s.agreement with
              payer_approved := true, receiver_approved := true,
              is_completed := true },
            custody := s.custody - s.agreement.amount,
            receiverBal := s.receiverBal + s.agreement.amount } :=
      approveAs_payer_completes rfl hco hca rfl hb1 hb2
    rw [e1, e3, e2, e4, e5, e6]
    refine ⟨rfl, rfl, ?_, rfl, ?_, rfl, rfl⟩ <;> simp [hra]
  · -- payer_approved = true, receiver_approved = false
    have e1 : approveAs s s.agreement.payer =
        { s with agreement := { s.agreement with payer_approved := true } } :=
      approveAs_payer_pending rfl hco hca hra
    have e2 : approveAs
        { s with agreement := { s.agreement with payer_approved := true } }
        s.agreement.payer =
        { s with agreement := { s.agreement with payer_approved := true } } :=
      approveAs_payer_pending rfl hco hca hra
    have e3 : approveAs s s.agreement.receiver =
        { s with
            agreement := { s.agreement with
              receiver_approved := true, is_completed := true },
            custody := s.custody - s.agreement.amount,
            receiverBal := s.receiverBal + s.agreement.amount } :=
      approveAs_receiver_completes hns rfl hco hca hpa hb1 hb2
    have e4 : approveAs
        { s with
            agreement := { s.agreement with
              receiver_approved := true, is_completed := true },
            custody := s.custody - s.agreement.amount,
            receiverBal := s.receiverBal + s.agreement.amount }
        s.agreement.receiver =
        { s with
            agreement := { s.agreement with
              receiver_approved := true, is_completed := true },
            custody := s.custody - s.agreement.amount,
            receiverBal := s.receiverBal + s.agreement.amount } :=
      approveAs_completed _ rfl
    have e5 : approveAs
        { s with agreement := { s.agreement with payer_approved := true } }
        s.agreement.receiver =
        { s with
            agreement := { s.agreement with
              payer_approved := true, receiver_approved := true,
              is_completed := true },
            custody := s.custody - s.agreement.amount,
            receiverBal := s.receiverBal + s.agreement.amount } :=
      approveAs_receiver_completes hns rfl hco hca rfl hb1 hb2
    have e6 : approveAs
        { s with
            agreement := { s.agreement with
              receiver_approved := true, is_completed := true },
            custody := s.custody - s.agreement.amount,
            receiverBal := s.receiverBal + s.agreement.amount }
        s.agreement.payer =
        { s with
            agreement := { s.agreement with
              receiver_approved := true, is_completed := true },
            custody := s.custody - s.agreement.amount,
            receiverBal := s.receiverBal + s.agreement.amount } :=
      approveAs_completed _ rfl
    rw [e1, e3, e2, e4, e5, e6]
    refine ⟨rfl, rfl, ?_, rfl, rfl, rfl, rfl⟩
    simp [hpa]
  · -- payer_approved = true, receiver_approved = true
    have e1 : approveAs s s.agreement.payer =
        { s with
            agreement :=
              { s.agreement with payer_approved := true, is_completed := true },
            custody := s.custody - s.agreement.amount,
            receiverBal := s.receiverBal + s.agreement.amount } :=
      approveAs_payer_completes rfl hco hca hra hb1 hb2
    have e2 : approveAs
        { s with
            agreement :=
              { s.agreement with payer_approved := true, is_completed := true },
            custody := s.custody - s.agreement.amount,
            receiverBal := s.receiverBal + s.agreement.amount }
        s.agreement.payer =
        { s with
            agreement :=
              { s.agreement with payer_approved := true, is_completed := true },
            custody := s.custody - s.agreement.amount,
            receiverBal := s.receiverBal + s.agreement.amount } :=
      approveAs_completed _ rfl
    have e3 : approveAs s s.agreement.receiver =
        { s with
            agreement := { s.agreement with
              receiver_approved := true, is_completed := true },
            custody := s.custody - s.agreement.amount,
            receiverBal := s.receiverBal + s.agreement.amount } :=
      approveAs_receiver_completes hns rfl hco hca hpa hb1 hb2
    have e4 : approveAs
        { s with
            agreement := { s.agreement with
              receiver_approved := true, is_completed := true },
            custody := s.custody - s.agreement.amount,
            receiverBal := s.receiverBal + s.agreement.amount }
        s.agreement.receiver =
        { s with
            agreement := { s.agreement with
              receiver_approved := true, is_completed := true },
            custody := s.custody - s.agreement.amount,
            receiverBal := s.receiverBal + s.agreement.amount } :=
      approveAs_completed _ rfl
    have e5 : approveAs
        { s with
            agreement :=
              { s.agreement with payer_approved := true, is_completed := true },
            custody := s.custody - s.agreement.amount,
            receiverBal := s.receiverBal + s.agreement.amount }
        s.agreement.receiver =
        { s with
            agreement :=
              { s.agreement with payer_approved := true, is_completed := true },
            custody := s.custody - s.agreement.amount,
            receiverBal := s.receiverBal + s.agreement.amount } :=
      approveAs_completed _ rfl
    have e6 : approveAs
        { s with
            agreement := { s.agreement with
              receiver_approved := true, is_completed := true },
            custody := s.custody - s.agreement.amount,
            receiverBal := s.receiverBal + s.agreement.amount }
        s.agreement.payer =
        { s with
            agreement := { s.agreement with
              receiver_approved := true, is_completed := true },
            custody := s.custody - s.agreement.amount,
            receiverBal := s.receiverBal + s.agreement.amount } :=
      approveAs_completed _ rfl
    rw [e1, e3, e2, e4, e5, e6]
    refine ⟨rfl, rfl, ?_, rfl, ?_, rfl, rfl⟩ <;> simp [hpa, hra]

/-- Witness for C4: on the concrete open agreement, payer-then-receiver
approval completes it with the receiver paid. -/
theorem approve_idempotent_commutative_witness :
    (approveAs (approveAs openState openState.agreement.payer)
        openState.agreement.receiver).agreement.is_completed = true :=
  (approve_idempotent_commutative openState (by decide) (by decide) (by decide)
      (by decide) (by decide)).2.2.2.2.2.1

/-- C7: `create_payment_agreement` validates in exactly the claimed order,
returning the first failing check's error, and on success initialises the
record with all seven flags false and moves exactly `amount` from the payer
into custody: it coincides with the ordered reference
`create_payment_agreement_spec_order`. -/
theorem create_matches_ordered_spec (s : EscrowState) (payer : Pubkey)
    (name : String) (receiver : Pubkey) (amount : Nat) (exp : Option Int)
    (referee : Option Pubkey) (now : Int)
    (hcap : s.custody + amount < U64LIMIT) :
    create_payment_agreement s payer name receiver amount exp referee now =
      create_payment_agreement_spec_order s payer name receiver amount exp
        referee now := by
  simp only [create_payment_agreement, create_payment_agreement_spec_order]
  by_cases hname : name.utf8ByteSize > 0 ∧ name.utf8ByteSize ≤ 32
  case neg =>
    rw [if_pos hname,
      if_pos (show name.utf8ByteSize < 1 ∨ 32 < name.utf8ByteSize by omega)]
  case pos =>
    rw [if_neg (not_not_intro hname),
      if_neg (show ¬ (name.utf8ByteSize < 1 ∨ 32 < name.utf8ByteSize) by
        omega)]
    by_cases hpr : payer = receiver
    case pos =>
      rw [if_pos (not_not_intro hpr), if_pos hpr]
    case neg =>
      rw [if_neg (not_not_intro hpr), if_neg hpr]
      by_cases hrp : referee = some payer
      case pos => rw [if_pos hrp, if_pos hrp]
      case neg =>
        rw [if_neg hrp, if_neg hrp]
        by_cases hrr : referee = some receiver
        case pos => rw [if_pos hrr, if_pos hrr]
        case neg =>
          rw [if_neg hrr, if_neg hrr]
          rcases exp with _ | e
          · rw [if_neg (show ¬ (Option.any (fun e => decide (e ≤ now))
                none = true) by simp)]
            dsimp only
            by_cases hbal : s.payerBal ≥ amount
            case pos =>
              rw [if_neg (not_not_intro hbal),
                if_neg (show ¬ (s.payerBal < amount) by omega),
                transferLamports_ok hbal hcap]
            case neg =>
              rw [if_pos hbal, if_pos (show s.payerBal < amount by omega)]
          · by_cases hle : e ≤ now
            case pos =>
              rw [if_pos (show Option.any (fun x => decide (x ≤ now))
                (some e) = true by simp [hle])]
              dsimp only
              rw [if_pos hle]
            case neg =>
              rw [if_neg (show ¬ (Option.any (fun x => decide (x ≤ now))
                (some e) = true) by simp [hle])]
              dsimp only
              rw [if_neg hle]
              by_cases hbal : s.payerBal ≥ amount
              case pos =>
                rw [if_neg (not_not_intro hbal),
                  if_neg (show ¬ (s.payerBal < amount) by omega),
                  transferLamports_ok hbal hcap]
              case neg =>
                rw [if_pos hbal, if_pos (show s.payerBal < amount by omega)]

/-- Witness for C7: the reference and the handler agree on the concrete
creation. -/
theorem create_matches_ordered_spec_witness :
    create_payment_agreement freshAccount 1 "a" 2 40 (some 10) (some 3) 0 =
      create_payment_agreement_spec_order freshAccount 1 "a" 2 40 (some 10)
        (some 3) 0 :=
  create_matches_ordered_spec freshAccount 1 "a" 2 40 (some 10) (some 3) 0
    (by decide)

end EscrowPayment
